import Mathlib

/-!
Verification of the TostEngine pocket-sampler engine (JUCE, C++) against its
natural-language specification.  The definitions below are a shallow embedding
of the repository's source files:

* `src/src/SamplerPlugin.h`   — `ButtonSample`, `ButtonSampleSound`,
  `MidiSamplerVoice` (render loop, stopNote, startNote pitch computation);
* `src/src/SamplerPlugin.cpp` — `OneShotMode`, `SamplerPlugin` state and its
  load/clear/mapping operations;
* `src/src/SamplerEditor.cpp` — learn state machine (`handleMidiMessage`),
  the sample-learn file-chooser callback, JSON export/import;
* `src/unnamed/part_000` (Main.cpp) — `MainWindow::handleIncomingMidiMessage`.

Floating-point `float`/`double` values of the C++ code are modelled as exact
rationals `ℚ` (the render path only adds, compares and truncates, so the
control flow is preserved); the transcendental `pow(2.0, x)` of the pitch-ratio
computation is modelled over the reals `ℝ`.
-/

namespace PocketSampler

/-- Decoded audio data, as produced by `AudioFormatReader::read` into a JUCE
`AudioSampleBuffer` (`numChannels` channels of `numSamples` frames each).
Sample frames are modelled as rationals. -/
structure AudioSampleBuffer where
  numSamples : ℕ
  channels : List (List ℚ)
deriving DecidableEq

/-- `getNumChannels()`: the number of channels of the buffer. -/
def AudioSampleBuffer.numChannels (b : AudioSampleBuffer) : ℕ :=
  b.channels.length

/-- Reading `channelData[pos]` on channel `ch` (`getWritePointer(ch)[pos]`);
out-of-range reads (unreachable in the verified runs) yield 0. -/
def AudioSampleBuffer.sampleAt (b : AudioSampleBuffer) (ch pos : ℕ) : ℚ :=
  (b.channels.getD ch []).getD pos 0

/-- `ButtonSample` (SamplerPlugin.h:27-50): one sample slot.  The C++ raw
pointer `AudioSampleBuffer*` is modelled here by value (`Option`); the
pointer-identity aspects of `clear` are modelled separately in the
`Ownership` namespace. -/
structure ButtonSample where
  sampleBuffer : Option AudioSampleBuffer
  filePath : String
  sourceSampleRate : ℚ
  isLoaded : Bool
  rootNote : ℤ
deriving DecidableEq

/-- The `ButtonSample()` constructor: null buffer, rate 0, not loaded,
root note 60, empty path. -/
def ButtonSample.init : ButtonSample :=
  { sampleBuffer := none, filePath := "", sourceSampleRate := 0,
    isLoaded := false, rootNote := 60 }

/-- `ButtonSample::clear` (SamplerPlugin.h:38-49): deletes the buffer and
resets every field to the constructor state. -/
def ButtonSample.clear (_b : ButtonSample) : ButtonSample :=
  ButtonSample.init

/-- `ButtonSampleSound` (SamplerPlugin.h:54-72): the per-sample synthesiser
sound, carrying the side-channel `buttonIndex` and a root note. -/
structure ButtonSampleSound where
  buttonIndex : ℤ
  sampleBuffer : Option AudioSampleBuffer
  sourceSampleRate : ℚ
  rootNote : ℤ
deriving DecidableEq

/-- `ButtonSampleSound::appliesToNote` (SamplerPlugin.h:62):
`midiNote == rootNote`. -/
def ButtonSampleSound.appliesToNote (s : ButtonSampleSound) (midiNote : ℤ) : Bool :=
  midiNote == s.rootNote

/-- `MidiSamplerVoice` (SamplerPlugin.h:75-218): the per-voice playback
state.  `position` is the C++ `double` playhead, `pitchRatio` the per-frame
increment. -/
structure MidiSamplerVoice where
  isPlaying : Bool
  velocity : ℚ
  position : ℚ
  pitchRatio : ℚ
  midiNoteNumber : ℤ
  rootNote : ℤ
  sampleBuffer : Option AudioSampleBuffer
  sourceSampleRate : ℚ
deriving DecidableEq

/-- `MidiSamplerVoice::stopNote` (SamplerPlugin.h:127-148).  The global
`OneShotMode::isEnabled` flag is passed explicitly.  When one-shot mode is
enabled the method returns immediately; otherwise it clears `isPlaying`
(and `clearCurrentNote()` releases the base-class note bookkeeping, which
has no field in this model). -/
def MidiSamplerVoice.stopNote (oneShotEnabled : Bool) (v : MidiSamplerVoice)
    (_velocity : ℚ) (_allowTailOff : Bool) : MidiSamplerVoice :=
  if oneShotEnabled then v else { v with isPlaying := false }

/-- The per-frame sample read of `MidiSamplerVoice::renderNextBlock`
(SamplerPlugin.h:170-178): sum `channelData[samplePos]` over all source
channels at the truncated playhead modulo the buffer length, then divide by
the channel count (mono down-mix).  The playhead is non-negative in every
reachable state, so the C++ truncating `static_cast<int>` is the floor. -/
def frameSample (buf : AudioSampleBuffer) (v : MidiSamplerVoice) : ℚ :=
  (((List.range buf.numChannels).map fun ch =>
      buf.sampleAt ch ((⌊v.position⌋).toNat % buf.numSamples)).sum) /
    (buf.numChannels : ℚ)

/-- The body of the `for (int i = 0; i < numSamples; ++i)` loop of
`MidiSamplerVoice::renderNextBlock` (SamplerPlugin.h:166-196), by recursion
on the number of remaining frames.  Each output entry is the voice's additive
contribution `sample * velocity` to that frame (written identically to every
output channel by the C++ code); after the end-of-buffer `break` the
remaining frames receive no contribution, i.e. 0.  Note the source order:
the frame is read at the pre-advance playhead, the playhead advances by
`pitchRatio`, and the end check runs before the frame just read is written
out. -/
def renderLoop (buf : AudioSampleBuffer) (v : MidiSamplerVoice) :
    ℕ → MidiSamplerVoice × List ℚ
  | 0 => (v, [])
  | n + 1 =>
    let newPos := v.position + v.pitchRatio
    if (buf.numSamples : ℚ) ≤ newPos then
      ({ v with position := newPos, isPlaying := false }, List.replicate (n + 1) 0)
    else
      let r := renderLoop buf { v with position := newPos } n
      (r.1, frameSample buf v * v.velocity :: r.2)

/-- `MidiSamplerVoice::renderNextBlock` (SamplerPlugin.h:161-197): early
return (zero contribution) when the voice has no buffer or is not playing,
otherwise the per-frame loop. -/
def MidiSamplerVoice.renderNextBlock (v : MidiSamplerVoice) (numSamples : ℕ) :
    MidiSamplerVoice × List ℚ :=
  match v.sampleBuffer with
  | none => (v, List.replicate numSamples 0)
  | some buf =>
    if v.isPlaying then renderLoop buf v numSamples
    else (v, List.replicate numSamples 0)

/-- The pitch-ratio computation of `MidiSamplerVoice::startNote`
(SamplerPlugin.h:110-118): `pow(2.0, (midiNoteNumber - rootNote) / 12.0)`
when the sound's source sample rate is positive, and 1.0 otherwise.
The C++ `pow` over doubles is modelled by the real power function. -/
noncomputable def startNotePitchRatio (sourceSampleRate : ℚ)
    (midiNoteNumber rootNote : ℤ) : ℝ :=
  if 0 < sourceSampleRate then
    (2 : ℝ) ^ ((((midiNoteNumber - rootNote) : ℤ) : ℝ) / 12)
  else 1

/-- The decoding capability (`formatManager.createReaderFor(file)` followed
by `reader->read(...)`): a successful decode yields a filled buffer and the
reader's sample rate. -/
structure DecodedAudio where
  buffer : AudioSampleBuffer
  sampleRate : ℚ
deriving DecidableEq

/-- The external environment the control path consults: whether a path names
an existing file (`File::exists`) and what decoding that path produces
(`none` models `createReaderFor` returning `nullptr`).  Paths identify files
(`file.getFullPathName()`). -/
structure Env where
  fileExists : String → Bool
  decode : String → Option DecodedAudio

/-- The `SamplerPlugin` state (SamplerPlugin.h:274-281): the 16 pad slots,
the pad-to-note mapping, the 128 note-indexed slots, the synthesiser's sound
list, plus the global `OneShotMode::isEnabled` flag (SamplerPlugin.cpp:17-31),
which the editor keeps in sync with its own `isOneShotMode`. -/
structure SamplerState where
  buttons : ℕ → ButtonSample
  noteMapping : ℕ → ℤ
  midiNoteSamples : ℕ → ButtonSample
  sounds : List ButtonSampleSound
  oneShot : Bool

/-- The `SamplerPlugin()` constructor state (SamplerPlugin.cpp:34-70):
16 empty pads, identity-offset mapping pad i -> note 36+i, 128 empty note
slots, no sounds; `OneShotMode::isEnabled` starts false. -/
def initialSamplerState : SamplerState :=
  { buttons := fun _ => ButtonSample.init
    noteMapping := fun i => 36 + (i : ℤ)
    midiNoteSamples := fun _ => ButtonSample.init
    sounds := []
    oneShot := false }

/-- `SamplerPlugin::hasSampleForMidiNote` (SamplerPlugin.h:263-266). -/
def hasSampleForMidiNote (s : SamplerState) (midiNote : ℤ) : Bool :=
  0 ≤ midiNote && midiNote < 128 && (s.midiNoteSamples midiNote.toNat).isLoaded

/-- `SamplerPlugin::clearMidiNoteSample` (SamplerPlugin.cpp:287-306): clears
the note slot and removes every synth sound with `buttonIndex == -1 &&
rootNote == midiNote` (the backward removal loop has no break, so all
matches go). -/
def clearMidiNoteSample (midiNote : ℤ) (s : SamplerState) : SamplerState :=
  if 0 ≤ midiNote ∧ midiNote < 128 then
    { s with
      midiNoteSamples := fun n =>
        if n = midiNote.toNat then (s.midiNoteSamples n).clear else s.midiNoteSamples n
      sounds := s.sounds.filter fun snd =>
        !(snd.buttonIndex == -1 && snd.rootNote == midiNote) }
  else s

/-- `SamplerPlugin::clearSample` (SamplerPlugin.cpp:199-217): clears the pad
slot and removes every synth sound with a matching `buttonIndex`. -/
def clearSample (buttonIndex : ℤ) (s : SamplerState) : SamplerState :=
  if 0 ≤ buttonIndex ∧ buttonIndex < 16 then
    { s with
      buttons := fun i =>
        if i = buttonIndex.toNat then (s.buttons i).clear else s.buttons i
      sounds := s.sounds.filter fun snd => !(snd.buttonIndex == buttonIndex) }
  else s

/-- `SamplerPlugin::loadSampleForMidiNote` (SamplerPlugin.cpp:252-285):
rejects an out-of-range note, clears the slot, then attempts to decode; on
success fills the slot (root note := the note itself) and appends a sound
with `buttonIndex = -1` and `rootNote = midiNote`; on failure returns false
with the slot left cleared. -/
def loadSampleForMidiNote (env : Env) (midiNote : ℤ) (filePath : String)
    (s : SamplerState) : Bool × SamplerState :=
  if midiNote < 0 ∨ 128 ≤ midiNote then (false, s)
  else
    let s1 := clearMidiNoteSample midiNote s
    match env.decode filePath with
    | some d =>
      let slot : ButtonSample :=
        { sampleBuffer := some d.buffer, filePath := filePath,
          sourceSampleRate := d.sampleRate, isLoaded := true, rootNote := midiNote }
      let snd : ButtonSampleSound :=
        { buttonIndex := -1, sampleBuffer := some d.buffer,
          sourceSampleRate := d.sampleRate, rootNote := midiNote }
      (true,
        { s1 with
          midiNoteSamples := fun n =>
            if n = midiNote.toNat then slot else s1.midiNoteSamples n
          sounds := s1.sounds ++ [snd] })
    | none => (false, s1)

/-- `SamplerPlugin::loadSample` (SamplerPlugin.cpp:164-197): the pad-indexed
loader; clears the pad slot first, then decodes; on success fills the slot
with root note `noteMapping[buttonIndex]` and appends the matching sound. -/
def loadSample (env : Env) (buttonIndex : ℤ) (filePath : String)
    (s : SamplerState) : Bool × SamplerState :=
  if buttonIndex < 0 ∨ 16 ≤ buttonIndex then (false, s)
  else
    let s1 := clearSample buttonIndex s
    match env.decode filePath with
    | some d =>
      let root := s1.noteMapping buttonIndex.toNat
      let slot : ButtonSample :=
        { sampleBuffer := some d.buffer, filePath := filePath,
          sourceSampleRate := d.sampleRate, isLoaded := true, rootNote := root }
      let snd : ButtonSampleSound :=
        { buttonIndex := buttonIndex, sampleBuffer := some d.buffer,
          sourceSampleRate := d.sampleRate, rootNote := root }
      (true,
        { s1 with
          buttons := fun i =>
            if i = buttonIndex.toNat then slot else s1.buttons i
          sounds := s1.sounds ++ [snd] })
    | none => (false, s1)

/-- Helper for `setNoteMapping`'s backward search with `break`: finds the
last element satisfying `p` and returns it together with the list with that
one element removed. -/
def removeLastMatching (p : ButtonSampleSound → Bool) :
    List ButtonSampleSound → Option (ButtonSampleSound × List ButtonSampleSound)
  | [] => none
  | x :: xs =>
    match removeLastMatching p xs with
    | some (a, ys) => some (a, x :: ys)
    | none => if p x then some (x, xs) else none

/-- `SamplerPlugin::setNoteMapping` (SamplerPlugin.cpp:220-248): sets the
pad's mapped note, then removes the last sound carrying this `buttonIndex`
(the loop runs backwards and breaks at the first hit) and re-adds it with
`rootNote` set to the new note. -/
def setNoteMapping (buttonIndex midiNote : ℤ) (s : SamplerState) : SamplerState :=
  if buttonIndex < 0 ∨ 16 ≤ buttonIndex then s
  else
    match removeLastMatching (fun snd => snd.buttonIndex == buttonIndex) s.sounds with
    | some (old, rest) =>
      { s with
        noteMapping := fun i =>
          if i = buttonIndex.toNat then midiNote else s.noteMapping i
        sounds := rest ++
          [{ buttonIndex := buttonIndex, sampleBuffer := old.sampleBuffer,
             sourceSampleRate := old.sourceSampleRate, rootNote := midiNote }] }
    | none =>
      { s with
        noteMapping := fun i =>
          if i = buttonIndex.toNat then midiNote else s.noteMapping i }

/-- One entry of the exported `buttons` JSON array. -/
structure ButtonEntry where
  index : ℤ
  midiNote : ℤ
  filePath : String
deriving DecidableEq

/-- One entry of the exported `midiNotes` JSON array. -/
structure NoteEntry where
  midiNote : ℤ
  filePath : String
deriving DecidableEq

/-- The parsed settings document.  `Option` fields model the import's
tolerance of missing `oneShotMode` / `buttons` / `midiNotes` properties
(`jsonObj->hasProperty(...)` guards in SamplerEditor.cpp:843-915). -/
structure SettingsDoc where
  version : String
  oneShotMode : Option Bool
  buttons : Option (List ButtonEntry)
  midiNotes : Option (List NoteEntry)

/-- The document built by `SamplerEditor::exportAllSettings`
(SamplerEditor.cpp:706-754): version "1.0", the one-shot flag, 16 button
entries (pad index, mapped note, and the mapped note's sample path if that
note has a loaded sample), and 128 note entries (note, path when loaded,
empty string otherwise). -/
def exportButtonEntry (s : SamplerState) (i : ℕ) : ButtonEntry :=
  { index := (i : ℤ), midiNote := s.noteMapping i,
    filePath :=
      if hasSampleForMidiNote s (s.noteMapping i) then
        (s.midiNoteSamples (s.noteMapping i).toNat).filePath
      else "" }

def exportNoteEntry (s : SamplerState) (n : ℕ) : NoteEntry :=
  { midiNote := (n : ℤ),
    filePath :=
      if (s.midiNoteSamples n).isLoaded then (s.midiNoteSamples n).filePath
      else "" }

def exportAllSettings (s : SamplerState) : SettingsDoc :=
  { version := "1.0"
    oneShotMode := some s.oneShot
    buttons := some ((List.range 16).map (exportButtonEntry s))
    midiNotes := some ((List.range 128).map (exportNoteEntry s)) }

/-- Processing one `buttons` entry during import (SamplerEditor.cpp:863-905):
only the note mapping is applied (samples are loaded from the `midiNotes`
section); out-of-range indices are skipped.  The button-UI repaint logic is
display-only and not modelled. -/
def importButtonEntry (e : ButtonEntry) (s : SamplerState) : SamplerState :=
  if 0 ≤ e.index ∧ e.index < 16 then setNoteMapping e.index e.midiNote s else s

/-- The `buttons`-array loop of `loadAllSamplesFromJson`. -/
def importButtonEntries : List ButtonEntry → SamplerState → SamplerState
  | [], s => s
  | e :: es, s => importButtonEntries es (importButtonEntry e s)

/-- The `midiNotes`-array loop of `loadAllSamplesFromJson`
(SamplerEditor.cpp:917-967), returning the final state together with the
`loadedCount` and `failedCount` tallies: an entry with an in-range note and a
non-empty path either loads (count as loaded), fails to load (count as
failed) or references a missing file (count as failed, slot untouched);
every other entry is skipped. -/
def importNoteEntries (env : Env) : List NoteEntry → SamplerState → SamplerState × ℕ × ℕ
  | [], s => (s, 0, 0)
  | e :: es, s =>
    if 0 ≤ e.midiNote ∧ e.midiNote < 128 ∧ e.filePath ≠ "" then
      if env.fileExists e.filePath then
        let lr := loadSampleForMidiNote env e.midiNote e.filePath s
        let r := importNoteEntries env es lr.2
        if lr.1 then (r.1, r.2.1 + 1, r.2.2) else (r.1, r.2.1, r.2.2 + 1)
      else
        let r := importNoteEntries env es s
        (r.1, r.2.1, r.2.2 + 1)
    else importNoteEntries env es s

/-- The state effect of one `midiNotes` entry, matching one iteration of the
loop embedded in `importNoteEntries`: an in-range note with a non-empty path
naming an existing file goes through `loadSampleForMidiNote`; everything
else leaves the state alone. -/
def importNoteStepState (env : Env) (e : NoteEntry) (s : SamplerState) : SamplerState :=
  if 0 ≤ e.midiNote ∧ e.midiNote < 128 ∧ e.filePath ≠ "" then
    if env.fileExists e.filePath then (loadSampleForMidiNote env e.midiNote e.filePath s).2
    else s
  else s

/-- Whether a `midiNotes` entry is tallied into `failedCount`: an in-range
note with a non-empty path whose file is missing or fails to decode. -/
def noteEntryFails (env : Env) (e : NoteEntry) : Bool :=
  decide (0 ≤ e.midiNote ∧ e.midiNote < 128 ∧ e.filePath ≠ "") &&
    (!env.fileExists e.filePath || (env.decode e.filePath).isNone)

/-- `SamplerEditor::loadAllSamplesFromJson` (SamplerEditor.cpp:811-983) on an
already-parsed document (JSON parse failure, the only `return false` path, is
outside this model): apply `oneShotMode` when present, process the `buttons`
section, then the `midiNotes` section; returns `true` together with the final
state and the (loadedCount, failedCount) tallies. -/
def loadAllSamplesFromJson (env : Env) (doc : SettingsDoc) (s : SamplerState) :
    Bool × SamplerState × ℕ × ℕ :=
  let s1 := match doc.oneShotMode with
    | some b => { s with oneShot := b }
    | none => s
  let s2 := match doc.buttons with
    | some bs => importButtonEntries bs s1
    | none => s1
  let r := match doc.midiNotes with
    | some ns => importNoteEntries env ns s2
    | none => (s2, 0, 0)
  (true, r.1, r.2.1, r.2.2)

/-- A MIDI channel-voice message as the editor and main window see it
(note number and 0-127 velocity). -/
inductive MidiMessage where
  | noteOn (note : ℤ) (velocity : ℕ)
  | noteOff (note : ℤ) (velocity : ℕ)
deriving DecidableEq

/-- `MidiMessage::getNoteNumber`. -/
def MidiMessage.noteNumber : MidiMessage → ℤ
  | .noteOn n _ => n
  | .noteOff n _ => n

/-- `MidiMessage::getVelocity` (0-127). -/
def MidiMessage.velocity : MidiMessage → ℕ
  | .noteOn _ v => v
  | .noteOff _ v => v

/-- `MidiMessage::isNoteOn`. -/
def MidiMessage.isNoteOn : MidiMessage → Bool
  | .noteOn _ _ => true
  | _ => false

/-- `MidiMessage::isNoteOff`. -/
def MidiMessage.isNoteOffEvent : MidiMessage → Bool
  | .noteOff _ _ => true
  | _ => false

/-- The learn-relevant `SamplerEditor` state (SamplerEditor.h:185-216):
the two mutually-exclusive learn flags, the pad selected for MIDI learn
(-1 when none), the sample-learn pad index, and the per-note visualisation
arrays. -/
structure EditorState where
  isMidiLearning : Bool
  isSampleLearning : Bool
  learningButtonIndex : ℤ
  sampleLearnButtonIndex : ℤ
  notePlaying : ℕ → Bool
  noteVelocities : ℕ → ℚ

/-- `SamplerEditor::handleMidiMessage` (SamplerEditor.cpp:638-691): first the
visualisation arrays are updated for in-range note-on/note-off events, then —
only when `isMidiLearning` is set and a pad has been selected
(`learningButtonIndex >= 0`) and the message is a note-on — the pad is
rebound to the incoming note via `setNoteMapping` and MIDI-learn mode ends.
There is no sample-learn branch: `isSampleLearning` plays no role here.

The visualisation-array update (SamplerEditor.cpp:642-665) is split out as
`trackNoteArrays`. -/
def trackNoteArrays (ed : EditorState) (msg : MidiMessage) : EditorState :=
  let note := msg.noteNumber
  if msg.isNoteOn ∧ 0 ≤ note ∧ note < 128 then
    { ed with
      notePlaying := fun n => if n = note.toNat then true else ed.notePlaying n
      noteVelocities := fun n =>
        if n = note.toNat then (msg.velocity : ℚ) / 127 else ed.noteVelocities n }
  else if msg.isNoteOffEvent ∧ 0 ≤ note ∧ note < 128 then
    { ed with
      notePlaying := fun n => if n = note.toNat then false else ed.notePlaying n
      noteVelocities := fun n => if n = note.toNat then 0 else ed.noteVelocities n }
  else ed

def handleMidiMessage (ed : EditorState) (pl : SamplerState) (msg : MidiMessage) :
    EditorState × SamplerState :=
  let ed1 := trackNoteArrays ed msg
  if ed1.isMidiLearning ∧ 0 ≤ ed1.learningButtonIndex ∧ msg.isNoteOn then
    ({ ed1 with isMidiLearning := false, learningButtonIndex := -1 },
      setNoteMapping ed1.learningButtonIndex msg.noteNumber pl)
  else (ed1, pl)

/-- The application state seen by `MainWindow::handleIncomingMidiMessage`:
the editor, the plugin, and the plugin's `MidiMessageCollector` queue (the
channel through which messages reach `processBlock` and hence the
synthesiser's voice pool). -/
structure AppState where
  editor : EditorState
  plugin : SamplerState
  midiQueue : List MidiMessage

/-- `MainWindow::handleIncomingMidiMessage` (part_000:204-255): every
incoming message is unconditionally queued to the plugin's MIDI collector
(`addMessageToQueue`), and then handed to the editor's `handleMidiMessage`
for visualisation and MIDI learn.  The status display and optional MIDI
output echo are not modelled. -/
def handleIncomingMidiMessage (st : AppState) (msg : MidiMessage) : AppState :=
  let q := st.midiQueue ++ [msg]
  let r := handleMidiMessage st.editor st.plugin msg
  { editor := r.1, plugin := r.2, midiQueue := q }

/-- The sample-learn file-chooser callback of
`SamplerEditor::loadSampleForButton` (SamplerEditor.cpp:579-630), entered by
clicking a pad while `isSampleLearning` is set (SamplerEditor.cpp:182-188),
with `filePath` the file the user chose: the target note is the pad's
currently mapped note (`getNoteMapping(buttonIndex)`), the load goes through
`loadSampleForMidiNote`, and sample-learn mode ends regardless of the
outcome. -/
def loadSampleForButtonChosenFile (env : Env) (buttonIndex : ℕ) (filePath : String)
    (ed : EditorState) (pl : SamplerState) : Bool × EditorState × SamplerState :=
  let midiNote := pl.noteMapping buttonIndex
  let lr := loadSampleForMidiNote env midiNote filePath pl
  (lr.1,
    { ed with isSampleLearning := false, sampleLearnButtonIndex := -1 },
    lr.2)

/-! Concrete inputs used by the counterexample and witness theorems below. -/

/-- A decoded one-channel two-frame buffer. -/
def demoBuffer : AudioSampleBuffer :=
  { numSamples := 2, channels := [[1, 1]] }

/-- A voice playing `demoBuffer` from the start at unit pitch ratio. -/
def demoVoice : MidiSamplerVoice :=
  { isPlaying := true, velocity := 1, position := 0, pitchRatio := 1,
    midiNoteNumber := 60, rootNote := 60, sampleBuffer := some demoBuffer,
    sourceSampleRate := 44100 }

/-- A successful decode result. -/
def demoDecoded : DecodedAudio :=
  { buffer := demoBuffer, sampleRate := 44100 }

/-- An environment in which exactly the file "kick.wav" exists and decodes. -/
def demoEnv : Env :=
  { fileExists := fun p => p == "kick.wav"
    decode := fun p => if p == "kick.wav" then some demoDecoded else none }

/-- A loaded slot whose sample came from "kick.wav" at root note 60. -/
def demoLoadedSlot : ButtonSample :=
  { sampleBuffer := some demoBuffer, filePath := "kick.wav",
    sourceSampleRate := 44100, isLoaded := true, rootNote := 60 }

/-- A plugin state whose only loaded note slot is 60. -/
def demoState : SamplerState :=
  { initialSamplerState with
    midiNoteSamples := fun n => if n = 60 then demoLoadedSlot else ButtonSample.init }

/-- An environment in which exactly the file "ok.wav" exists and decodes. -/
def demoEnvOk : Env :=
  { fileExists := fun p => p == "ok.wav"
    decode := fun p => if p == "ok.wav" then some demoDecoded else none }

/-- An editor armed for MIDI learn with pad 5 selected. -/
def demoMidiLearnEditor : EditorState :=
  { isMidiLearning := true, isSampleLearning := false, learningButtonIndex := 5,
    sampleLearnButtonIndex := -1, notePlaying := fun _ => false,
    noteVelocities := fun _ => 0 }

/-- An editor armed for Sample Learn (no pad clicked yet). -/
def demoSampleLearnEditor : EditorState :=
  { isMidiLearning := false, isSampleLearning := true, learningButtonIndex := -1,
    sampleLearnButtonIndex := -1, notePlaying := fun _ => false,
    noteVelocities := fun _ => 0 }

namespace Ownership

/-! A pointer-level model of buffer ownership, for the claims about the
lifetime of `AudioSampleBuffer*`: the slot and any playing voice hold the
same raw pointer (a `BufferId` into an explicit heap), exactly as in the
C++ source where `ButtonSample.sampleBuffer` and
`MidiSamplerVoice.sampleBuffer` alias one heap allocation. -/

/-- A raw `AudioSampleBuffer*` value. -/
abbrev BufferId := ℕ

/-- The allocation state of the heap: which buffer ids are live. -/
structure Heap where
  live : BufferId → Bool

/-- A `ButtonSample` slot holding a raw buffer pointer. -/
structure SlotRef where
  sampleBuffer : Option BufferId
  filePath : String
  sourceSampleRate : ℚ
  isLoaded : Bool
  rootNote : ℤ

/-- A `MidiSamplerVoice` as a holder of the raw buffer pointer it reads
while rendering. -/
structure VoiceRef where
  isPlaying : Bool
  sampleBuffer : Option BufferId

/-- `ButtonSample::clear` (SamplerPlugin.h:38-49) at the pointer level:
`delete sampleBuffer` deallocates the buffer immediately — the heap drops
the id — and the slot's fields are reset.  No reference count is consulted:
the C++ code frees the allocation regardless of any voice still holding the
same pointer. -/
def clearSlot (slot : SlotRef) (h : Heap) : SlotRef × Heap :=
  match slot.sampleBuffer with
  | some bufId =>
    ({ sampleBuffer := none, filePath := "", sourceSampleRate := 0,
       isLoaded := false, rootNote := 60 },
      { live := fun j => if j = bufId then false else h.live j })
  | none =>
    ({ sampleBuffer := none, filePath := "", sourceSampleRate := 0,
       isLoaded := false, rootNote := 60 }, h)

/-- A heap holding exactly one live buffer, id 0. -/
def demoHeap : Heap :=
  { live := fun j => j == 0 }

/-- A loaded slot pointing at buffer 0. -/
def demoSlotRef : SlotRef :=
  { sampleBuffer := some 0, filePath := "kick.wav", sourceSampleRate := 44100,
    isLoaded := true, rootNote := 60 }

/-- A voice currently rendering buffer 0. -/
def demoVoiceRef : VoiceRef :=
  { isPlaying := true, sampleBuffer := some 0 }

end Ownership

/-! Helper lemmas. -/

theorem getD_replicate_zero (n i : ℕ) : (List.replicate n (0 : ℚ)).getD i 0 = 0 := by
  induction n generalizing i with
  | zero => simp [List.getD]
  | succ m ih =>
    cases i with
    | zero => simp [List.replicate_succ]
    | succ j => rw [List.replicate_succ, List.getD_cons_succ]; exact ih j

theorem renderLoop_spec (buf : AudioSampleBuffer) :
    ∀ (n : ℕ) (v : MidiSamplerVoice), v.isPlaying = true →
      v.position < (buf.numSamples : ℚ) →
      (((renderLoop buf v n).1.isPlaying = true →
          (renderLoop buf v n).1.position < (buf.numSamples : ℚ)) ∧
        ((renderLoop buf v n).1.isPlaying = false →
          (buf.numSamples : ℚ) ≤ (renderLoop buf v n).1.position ∧
          ∃ k, k < n ∧ ∀ i, k ≤ i → i < n → (renderLoop buf v n).2.getD i 0 = 0) ∧
        (renderLoop buf v n).2.length = n) := by
  intro n
  induction n with
  | zero =>
    intro v hplay hpos
    refine ⟨fun _ => hpos, fun hfalse => ?_, rfl⟩
    rw [show (renderLoop buf v 0).1 = v from rfl, hplay] at hfalse
    cases hfalse
  | succ m ih =>
    intro v hplay hpos
    by_cases hend : (buf.numSamples : ℚ) ≤ v.position + v.pitchRatio
    · rw [show renderLoop buf v (m + 1) =
          ({ v with position := v.position + v.pitchRatio, isPlaying := false },
            List.replicate (m + 1) 0) from by rw [renderLoop]; simp [hend]]
      refine ⟨fun htrue => ?_,
        fun _ => ⟨hend, 0, Nat.succ_pos m, fun i _ _ => getD_replicate_zero _ _⟩, ?_⟩
      · simp at htrue
      · simp
    · have hstep : renderLoop buf v (m + 1) =
          ((renderLoop buf { v with position := v.position + v.pitchRatio } m).1,
            frameSample buf v * v.velocity ::
              (renderLoop buf { v with position := v.position + v.pitchRatio } m).2) := by
        rw [renderLoop]; simp [hend]
      rw [hstep]
      obtain ⟨ih1, ih2, ih3⟩ :=
        ih { v with position := v.position + v.pitchRatio } hplay (lt_of_not_le hend)
      refine ⟨ih1, fun hfalse => ?_, by simp [ih3]⟩
      obtain ⟨hge, k, hk, hzero⟩ := ih2 hfalse
      refine ⟨hge, k + 1, Nat.succ_lt_succ hk, fun i h1 h2 => ?_⟩
      cases i with
      | zero => omega
      | succ j =>
        rw [List.getD_cons_succ]
        exact hzero j (Nat.le_of_succ_le_succ h1) (Nat.lt_of_succ_lt_succ h2)

theorem renderLoop_stopped_position (buf : AudioSampleBuffer) :
    ∀ (n : ℕ) (v : MidiSamplerVoice), v.isPlaying = true →
      (renderLoop buf v n).1.isPlaying = false →
      (buf.numSamples : ℚ) ≤ (renderLoop buf v n).1.position := by
  intro n
  induction n with
  | zero =>
    intro v hplay hfalse
    rw [show (renderLoop buf v 0).1 = v from rfl, hplay] at hfalse
    cases hfalse
  | succ m ih =>
    intro v hplay hfalse
    by_cases hend : (buf.numSamples : ℚ) ≤ v.position + v.pitchRatio
    · rw [show renderLoop buf v (m + 1) =
          ({ v with position := v.position + v.pitchRatio, isPlaying := false },
            List.replicate (m + 1) 0) from by rw [renderLoop]; simp [hend]]
      exact hend
    · have hstep : (renderLoop buf v (m + 1)).1 =
          (renderLoop buf { v with position := v.position + v.pitchRatio } m).1 := by
        rw [renderLoop]; simp [hend]
      rw [hstep] at hfalse ⊢
      exact ih { v with position := v.position + v.pitchRatio } hplay hfalse

/-! Claim theorems. -/

/-- C4: during `renderNextBlock`, whenever a playing voice's playhead reaches
or exceeds its sample buffer's frame count, that voice stops (`isPlaying`
becomes false, i.e. Idle) rather than looping, and it contributes silence
(zero) for all remaining frames of the block.  Stated as: a voice still
playing after the block has its playhead strictly inside the buffer, and a
voice that stopped did so because the playhead reached the frame count, with
the output contributions zero from some frame before the end of the block
onwards. -/
theorem c4_render_stops_at_end (v : MidiSamplerVoice) (buf : AudioSampleBuffer)
    (n : ℕ) (hbuf : v.sampleBuffer = some buf) (hplay : v.isPlaying = true)
    (hpos : v.position < (buf.numSamples : ℚ)) :
    ((v.renderNextBlock n).1.isPlaying = true →
      (v.renderNextBlock n).1.position < (buf.numSamples : ℚ)) ∧
    ((v.renderNextBlock n).1.isPlaying = false →
      (buf.numSamples : ℚ) ≤ (v.renderNextBlock n).1.position ∧
      ∃ k, k < n ∧ ∀ i, k ≤ i → i < n → (v.renderNextBlock n).2.getD i 0 = 0) ∧
    (v.renderNextBlock n).2.length = n := by
  have hr : v.renderNextBlock n = renderLoop buf v n := by
    rw [MidiSamplerVoice.renderNextBlock, hbuf]
    simp [hplay]
  rw [hr]
  exact renderLoop_spec buf n v hplay hpos

/-- C4 witness: a concrete voice over a 2-frame buffer rendered for 4 frames
satisfies the hypotheses and the conclusion of `c4_render_stops_at_end`. -/
theorem c4_witness :
    (demoVoice.sampleBuffer = some demoBuffer ∧ demoVoice.isPlaying = true ∧
      demoVoice.position < (demoBuffer.numSamples : ℚ)) ∧
    (((demoVoice.renderNextBlock 4).1.isPlaying = true →
      (demoVoice.renderNextBlock 4).1.position < (demoBuffer.numSamples : ℚ)) ∧
    ((demoVoice.renderNextBlock 4).1.isPlaying = false →
      (demoBuffer.numSamples : ℚ) ≤ (demoVoice.renderNextBlock 4).1.position ∧
      ∃ k, k < 4 ∧ ∀ i, k ≤ i → i < 4 → (demoVoice.renderNextBlock 4).2.getD i 0 = 0) ∧
    (demoVoice.renderNextBlock 4).2.length = 4) :=
  ⟨⟨rfl, rfl, by norm_num [demoVoice, demoBuffer]⟩,
    c4_render_stops_at_end demoVoice demoBuffer 4 rfl rfl
      (by norm_num [demoVoice, demoBuffer])⟩

/-- C5: while global one-shot mode is enabled, `stopNote` (the voice-level
effect of `noteOff`) is a no-op on every voice, and a playing voice only
stops during rendering when its playhead reaches the end of its buffer. -/
theorem c5_one_shot_noteoff_noop (v : MidiSamplerVoice) (velocity : ℚ)
    (allowTailOff : Bool) (buf : AudioSampleBuffer) (n : ℕ)
    (hbuf : v.sampleBuffer = some buf) (hplay : v.isPlaying = true) :
    v.stopNote true velocity allowTailOff = v ∧
    ((v.renderNextBlock n).1.isPlaying = false →
      (buf.numSamples : ℚ) ≤ (v.renderNextBlock n).1.position) := by
  have hr : v.renderNextBlock n = renderLoop buf v n := by
    rw [MidiSamplerVoice.renderNextBlock, hbuf]
    simp [hplay]
  refine ⟨rfl, ?_⟩
  rw [hr]
  exact renderLoop_stopped_position buf n v hplay

/-- C5 witness: the concrete playing voice satisfies the hypotheses and the
conclusion of `c5_one_shot_noteoff_noop`. -/
theorem c5_witness :
    (demoVoice.sampleBuffer = some demoBuffer ∧ demoVoice.isPlaying = true) ∧
    (demoVoice.stopNote true 1 false = demoVoice ∧
    ((demoVoice.renderNextBlock 4).1.isPlaying = false →
      (demoBuffer.numSamples : ℚ) ≤ (demoVoice.renderNextBlock 4).1.position)) :=
  ⟨⟨rfl, rfl⟩, c5_one_shot_noteoff_noop demoVoice 1 false demoBuffer 4 rfl rfl⟩

/-- C6: whenever a voice starts for note `n` against a sound with root note
`r`, the computed pitch ratio is `2 ^ ((n - r) / 12)` when the source sample
rate is positive — hence exactly 1 when `n = r` — and is forced to 1 when
the source rate is zero or unknown (non-positive). -/
theorem c6_pitch_ratio_formula (sourceSampleRate : ℚ) (n r : ℤ) :
    (0 < sourceSampleRate →
      startNotePitchRatio sourceSampleRate n r =
        (2 : ℝ) ^ ((((n - r) : ℤ) : ℝ) / 12) ∧
      (n = r → startNotePitchRatio sourceSampleRate n r = 1)) ∧
    (sourceSampleRate ≤ 0 → startNotePitchRatio sourceSampleRate n r = 1) := by
  refine ⟨fun h => ⟨?_, fun hnr => ?_⟩, fun h => ?_⟩
  · rw [startNotePitchRatio, if_pos h]
  · subst hnr
    rw [startNotePitchRatio, if_pos h]
    simp
  · rw [startNotePitchRatio, if_neg (not_lt.mpr h)]

/-- C6 witness: with a positive source rate and note equal to the root note
the ratio is exactly 1, by `c6_pitch_ratio_formula`. -/
theorem c6_witness :
    (0 : ℚ) < 44100 ∧ startNotePitchRatio 44100 60 60 = 1 :=
  ⟨by norm_num, ((c6_pitch_ratio_formula 44100 60 60).1 (by norm_num)).2 rfl⟩

/-- C10: a sound applies only to note-ons whose note equals its root note
(`appliesToNote`), so every voice the synthesiser actually starts computes
its pitch ratio at `n = rootNote` and the pitch-shift formula evaluates to
exactly 1 — playback is never pitch-shifted (both the note-indexed loader
and pad rebinding construct sounds whose root note is the very note they
respond to, but this theorem needs only `appliesToNote`). -/
theorem c10_applied_sound_unit_pitch_ratio (s : ButtonSampleSound) (n : ℤ)
    (h : s.appliesToNote n = true) :
    startNotePitchRatio s.sourceSampleRate n s.rootNote = 1 := by
  have hn : n = s.rootNote := by
    simpa [ButtonSampleSound.appliesToNote] using h
  subst hn
  by_cases hrate : 0 < s.sourceSampleRate
  · rw [startNotePitchRatio, if_pos hrate]
    simp
  · rw [startNotePitchRatio, if_neg hrate]

/-- C10 witness: a concrete sound at root note 72 applies to note 72 and
yields pitch ratio 1. -/
theorem c10_witness :
    ((⟨-1, none, 44100, 72⟩ : ButtonSampleSound).appliesToNote 72 = true) ∧
    startNotePitchRatio (⟨-1, none, 44100, 72⟩ : ButtonSampleSound).sourceSampleRate 72
      (⟨-1, none, 44100, 72⟩ : ButtonSampleSound).rootNote = 1 :=
  ⟨by decide, c10_applied_sound_unit_pitch_ratio ⟨-1, none, 44100, 72⟩ 72 (by decide)⟩

/-- C9: evaluating `ButtonSample::clear` at the pointer level on a concrete
scene — a slot holding buffer 0 while a voice is still playing that same
buffer — shows that the buffer is deallocated immediately (`delete
sampleBuffer`), leaving the still-playing voice holding a dangling pointer:
the code does not defer the release until the last holder drops it. -/
theorem c9_clear_frees_buffer_despite_playing_voice :
    (Ownership.clearSlot Ownership.demoSlotRef Ownership.demoHeap).2.live 0 = false ∧
    (Ownership.clearSlot Ownership.demoSlotRef Ownership.demoHeap).1.isLoaded = false ∧
    Ownership.demoVoiceRef.isPlaying = true ∧
    Ownership.demoVoiceRef.sampleBuffer = some 0 ∧
    Ownership.demoHeap.live 0 = true := by
  refine ⟨?_, rfl, rfl, rfl, rfl⟩
  rfl

/-! Field-preservation lemmas for the editor's visualisation update. -/

theorem trackNoteArrays_isMidiLearning (ed : EditorState) (msg : MidiMessage) :
    (trackNoteArrays ed msg).isMidiLearning = ed.isMidiLearning := by
  simp only [trackNoteArrays]
  split_ifs <;> rfl

theorem trackNoteArrays_isSampleLearning (ed : EditorState) (msg : MidiMessage) :
    (trackNoteArrays ed msg).isSampleLearning = ed.isSampleLearning := by
  simp only [trackNoteArrays]
  split_ifs <;> rfl

theorem trackNoteArrays_learningButtonIndex (ed : EditorState) (msg : MidiMessage) :
    (trackNoteArrays ed msg).learningButtonIndex = ed.learningButtonIndex := by
  simp only [trackNoteArrays]
  split_ifs <;> rfl

theorem trackNoteArrays_sampleLearnButtonIndex (ed : EditorState) (msg : MidiMessage) :
    (trackNoteArrays ed msg).sampleLearnButtonIndex = ed.sampleLearnButtonIndex := by
  simp only [trackNoteArrays]
  split_ifs <;> rfl

theorem setNoteMapping_mapping (bi note : ℤ) (s : SamplerState)
    (h1 : 0 ≤ bi) (h2 : bi < 16) :
    (setNoteMapping bi note s).noteMapping =
      fun i => if i = bi.toNat then note else s.noteMapping i := by
  unfold setNoteMapping
  rw [if_neg (by omega : ¬(bi < 0 ∨ 16 ≤ bi))]
  split <;> rfl

/-- C1 counterexample: with MIDI Learn armed and pad 5 selected, the incoming
note-on 72 does rebind the pad, but it is NOT consumed: it is still appended
to the plugin's MIDI collector queue (the path into the voice pool), so the
claim's "not forwarded to the voice pool" is false at this input. -/
theorem c1_counterexample :
    (handleIncomingMidiMessage ⟨demoMidiLearnEditor, initialSamplerState, []⟩
        (MidiMessage.noteOn 72 100)).midiQueue = [MidiMessage.noteOn 72 100] ∧
    (handleIncomingMidiMessage ⟨demoMidiLearnEditor, initialSamplerState, []⟩
        (MidiMessage.noteOn 72 100)).midiQueue ≠ [] ∧
    (handleIncomingMidiMessage ⟨demoMidiLearnEditor, initialSamplerState, []⟩
        (MidiMessage.noteOn 72 100)).plugin.noteMapping 5 = 72 ∧
    (handleIncomingMidiMessage ⟨demoMidiLearnEditor, initialSamplerState, []⟩
        (MidiMessage.noteOn 72 100)).editor.isMidiLearning = false := by
  refine ⟨rfl, by decide, by decide, rfl⟩

/-- C1 amended: while MIDI Learn is armed with a pad selected, an incoming
note-on rebinds that pad to the note and disarms MIDI Learn, but the event
is still forwarded to the voice pool's MIDI queue (it may start a voice once
the block is rendered). -/
theorem c1_amended_rebinds_but_forwards (ed : EditorState) (pl : SamplerState)
    (q : List MidiMessage) (note : ℤ) (vel : ℕ)
    (hlearn : ed.isMidiLearning = true) (hlo : 0 ≤ ed.learningButtonIndex)
    (hhi : ed.learningButtonIndex < 16) :
    (handleIncomingMidiMessage ⟨ed, pl, q⟩ (MidiMessage.noteOn note vel)).midiQueue =
      q ++ [MidiMessage.noteOn note vel] ∧
    (handleIncomingMidiMessage ⟨ed, pl, q⟩
        (MidiMessage.noteOn note vel)).plugin.noteMapping ed.learningButtonIndex.toNat =
      note ∧
    (handleIncomingMidiMessage ⟨ed, pl, q⟩
        (MidiMessage.noteOn note vel)).editor.isMidiLearning = false ∧
    (handleIncomingMidiMessage ⟨ed, pl, q⟩
        (MidiMessage.noteOn note vel)).editor.learningButtonIndex = -1 := by
  have ht1 : (trackNoteArrays ed (MidiMessage.noteOn note vel)).isMidiLearning = true := by
    rw [trackNoteArrays_isMidiLearning]
    exact hlearn
  have ht2 : (trackNoteArrays ed (MidiMessage.noteOn note vel)).learningButtonIndex =
      ed.learningButtonIndex := trackNoteArrays_learningButtonIndex ed _
  simp only [handleIncomingMidiMessage, handleMidiMessage]
  split_ifs with hc
  · refine ⟨trivial, ?_, by trivial, by trivial⟩
    rw [ht2, setNoteMapping_mapping _ _ _ hlo hhi]
    simp [MidiMessage.noteNumber]
  · exact absurd ⟨ht1, by rw [ht2]; exact hlo, by simp [MidiMessage.isNoteOn]⟩ hc

/-- C1 witness: the amended theorem at the concrete armed-editor state and
note-on 72. -/
theorem c1_witness :
    (demoMidiLearnEditor.isMidiLearning = true ∧
      0 ≤ demoMidiLearnEditor.learningButtonIndex ∧
      demoMidiLearnEditor.learningButtonIndex < 16) ∧
    ((handleIncomingMidiMessage ⟨demoMidiLearnEditor, initialSamplerState, []⟩
        (MidiMessage.noteOn 72 100)).midiQueue = [] ++ [MidiMessage.noteOn 72 100] ∧
    (handleIncomingMidiMessage ⟨demoMidiLearnEditor, initialSamplerState, []⟩
        (MidiMessage.noteOn 72 100)).plugin.noteMapping
      demoMidiLearnEditor.learningButtonIndex.toNat = 72 ∧
    (handleIncomingMidiMessage ⟨demoMidiLearnEditor, initialSamplerState, []⟩
        (MidiMessage.noteOn 72 100)).editor.isMidiLearning = false ∧
    (handleIncomingMidiMessage ⟨demoMidiLearnEditor, initialSamplerState, []⟩
        (MidiMessage.noteOn 72 100)).editor.learningButtonIndex = -1) :=
  ⟨⟨rfl, by decide, by decide⟩,
    c1_amended_rebinds_but_forwards demoMidiLearnEditor initialSamplerState [] 72 100
      rfl (by decide) (by decide)⟩

/-- C3 counterexample: with Sample Learn armed, an incoming note-on 72 is not
consumed and does not become a load target: it is forwarded to the MIDI
queue, the sample-learn state is unchanged, and the plugin state (including
every slot and the mapping) is untouched — refuting the claim that the next
note-on is consumed and identifies the target note. -/
theorem c3_counterexample :
    (handleIncomingMidiMessage ⟨demoSampleLearnEditor, initialSamplerState, []⟩
        (MidiMessage.noteOn 72 100)).midiQueue = [MidiMessage.noteOn 72 100] ∧
    (handleIncomingMidiMessage ⟨demoSampleLearnEditor, initialSamplerState, []⟩
        (MidiMessage.noteOn 72 100)).editor.isSampleLearning = true ∧
    (handleIncomingMidiMessage ⟨demoSampleLearnEditor, initialSamplerState, []⟩
        (MidiMessage.noteOn 72 100)).editor.sampleLearnButtonIndex = -1 ∧
    (handleIncomingMidiMessage ⟨demoSampleLearnEditor, initialSamplerState, []⟩
        (MidiMessage.noteOn 72 100)).plugin = initialSamplerState := by
  refine ⟨rfl, rfl, rfl, rfl⟩

/-- C3 amended: while Sample Learn is armed, MIDI note-on events pass through
unconsumed (forwarded to the voice pool, learn state and plugin unchanged);
the target note is instead selected by clicking a pad: the file chosen in
the ensuing dialog is loaded at the pad's currently mapped note via
`loadSampleForMidiNote`, and sample-learn mode then ends. -/
theorem c3_amended_pad_click_selects_target :
    (∀ (ed : EditorState) (pl : SamplerState) (q : List MidiMessage) (note : ℤ)
        (vel : ℕ), ed.isSampleLearning = true → ed.isMidiLearning = false →
      (handleIncomingMidiMessage ⟨ed, pl, q⟩ (MidiMessage.noteOn note vel)).midiQueue =
        q ++ [MidiMessage.noteOn note vel] ∧
      (handleIncomingMidiMessage ⟨ed, pl, q⟩
          (MidiMessage.noteOn note vel)).editor.isSampleLearning = true ∧
      (handleIncomingMidiMessage ⟨ed, pl, q⟩
          (MidiMessage.noteOn note vel)).plugin = pl) ∧
    (∀ (env : Env) (bi : ℕ) (path : String) (ed : EditorState) (pl : SamplerState),
      loadSampleForButtonChosenFile env bi path ed pl =
        ((loadSampleForMidiNote env (pl.noteMapping bi) path pl).1,
          { ed with isSampleLearning := false, sampleLearnButtonIndex := -1 },
          (loadSampleForMidiNote env (pl.noteMapping bi) path pl).2)) := by
  constructor
  · intro ed pl q note vel hsl hml
    simp only [handleIncomingMidiMessage, handleMidiMessage]
    split_ifs with hc
    · exfalso
      have h := hc.1
      rw [trackNoteArrays_isMidiLearning, hml] at h
      simp at h
    · exact ⟨by trivial, by rw [trackNoteArrays_isSampleLearning]; exact hsl, by trivial⟩
  · intro env bi path ed pl
    rfl

/-- C3 witness: both parts of the amended theorem at concrete inputs. -/
theorem c3_witness :
    (demoSampleLearnEditor.isSampleLearning = true ∧
      demoSampleLearnEditor.isMidiLearning = false) ∧
    ((handleIncomingMidiMessage ⟨demoSampleLearnEditor, initialSamplerState, []⟩
        (MidiMessage.noteOn 72 100)).midiQueue = [] ++ [MidiMessage.noteOn 72 100] ∧
      (handleIncomingMidiMessage ⟨demoSampleLearnEditor, initialSamplerState, []⟩
          (MidiMessage.noteOn 72 100)).editor.isSampleLearning = true ∧
      (handleIncomingMidiMessage ⟨demoSampleLearnEditor, initialSamplerState, []⟩
          (MidiMessage.noteOn 72 100)).plugin = initialSamplerState) ∧
    loadSampleForButtonChosenFile demoEnv 0 "kick.wav" demoSampleLearnEditor
        initialSamplerState =
      ((loadSampleForMidiNote demoEnv (initialSamplerState.noteMapping 0) "kick.wav"
          initialSamplerState).1,
        { demoSampleLearnEditor with isSampleLearning := false, sampleLearnButtonIndex := -1 },
        (loadSampleForMidiNote demoEnv (initialSamplerState.noteMapping 0) "kick.wav"
          initialSamplerState).2) :=
  ⟨⟨rfl, rfl⟩,
    c3_amended_pad_click_selects_target.1 demoSampleLearnEditor initialSamplerState []
      72 100 rfl rfl,
    c3_amended_pad_click_selects_target.2 demoEnv 0 "kick.wav" demoSampleLearnEditor
      initialSamplerState⟩

/-- C2 counterexample: note 60 holds a loaded sample from "kick.wav"; loading
the undecodable "bad.wav" at note 60 reports failure (false), but the slot is
NOT left as it was — it has been cleared (`isLoaded` drops from true to
false), refuting the claim that a failed load leaves the prior slot
untouched. -/
theorem c2_counterexample :
    (loadSampleForMidiNote demoEnv 60 "bad.wav" demoState).1 = false ∧
    (demoState.midiNoteSamples 60).isLoaded = true ∧
    ((loadSampleForMidiNote demoEnv 60 "bad.wav" demoState).2.midiNoteSamples 60).isLoaded
      = false ∧
    (loadSampleForMidiNote demoEnv 60 "bad.wav" demoState).2.midiNoteSamples 60 ≠
      demoState.midiNoteSamples 60 := by
  refine ⟨by decide, by decide, by decide, by decide⟩

/-- C2 amended: a failed decode is reported to the caller (the load returns
false), but the slot is cleared before decoding is attempted, so after a
failed load the slot is in the freshly-cleared state (no buffer, empty path,
rate 0, not loaded, root note 60) rather than holding its prior contents.
This holds for both the note-indexed loader and the pad-indexed loader. -/
theorem c2_amended_failed_load_clears_slot :
    (∀ (env : Env) (note : ℤ) (path : String) (s : SamplerState),
      0 ≤ note → note < 128 → env.decode path = none →
      loadSampleForMidiNote env note path s = (false, clearMidiNoteSample note s) ∧
      (loadSampleForMidiNote env note path s).2.midiNoteSamples note.toNat =
        ButtonSample.init) ∧
    (∀ (env : Env) (bi : ℤ) (path : String) (s : SamplerState),
      0 ≤ bi → bi < 16 → env.decode path = none →
      loadSample env bi path s = (false, clearSample bi s)) := by
  constructor
  · intro env note path s h1 h2 hdec
    have heq : loadSampleForMidiNote env note path s = (false, clearMidiNoteSample note s) := by
      unfold loadSampleForMidiNote
      rw [if_neg (by omega : ¬(note < 0 ∨ 128 ≤ note)), hdec]
    refine ⟨heq, ?_⟩
    rw [heq]
    unfold clearMidiNoteSample
    rw [if_pos ⟨h1, h2⟩]
    simp [ButtonSample.clear, ButtonSample.init]
  · intro env bi path s h1 h2 hdec
    unfold loadSample
    rw [if_neg (by omega : ¬(bi < 0 ∨ 16 ≤ bi)), hdec]

/-- C2 witness: both loaders at concrete failing inputs. -/
theorem c2_witness :
    ((0 : ℤ) ≤ 60 ∧ (60 : ℤ) < 128 ∧ demoEnv.decode "bad.wav" = none ∧
      (0 : ℤ) ≤ 3 ∧ (3 : ℤ) < 16) ∧
    (loadSampleForMidiNote demoEnv 60 "bad.wav" demoState =
        (false, clearMidiNoteSample 60 demoState) ∧
      (loadSampleForMidiNote demoEnv 60 "bad.wav" demoState).2.midiNoteSamples
        (60 : ℤ).toNat = ButtonSample.init) ∧
    loadSample demoEnv 3 "bad.wav" initialSamplerState =
      (false, clearSample 3 initialSamplerState) :=
  ⟨⟨by decide, by decide, by decide, by decide, by decide⟩,
    c2_amended_failed_load_clears_slot.1 demoEnv 60 "bad.wav" demoState
      (by decide) (by decide) (by decide),
    c2_amended_failed_load_clears_slot.2 demoEnv 3 "bad.wav" initialSamplerState
      (by decide) (by decide) (by decide)⟩

/-! State-preservation lemmas used for the persistence round trip (C7) and
the partial-failure import (C8). -/

theorem clearMidiNoteSample_mapping (note : ℤ) (s : SamplerState) :
    (clearMidiNoteSample note s).noteMapping = s.noteMapping := by
  unfold clearMidiNoteSample
  split_ifs <;> rfl

theorem clearMidiNoteSample_slot_ne (note : ℤ) (s : SamplerState) (m : ℕ)
    (hm : (m : ℤ) ≠ note) :
    (clearMidiNoteSample note s).midiNoteSamples m = s.midiNoteSamples m := by
  unfold clearMidiNoteSample
  split_ifs with h
  · have hmn : m ≠ note.toNat := fun he => hm (by rw [he, Int.toNat_of_nonneg h.1])
    simp [hmn]
  · rfl

theorem loadSampleForMidiNote_mapping (env : Env) (note : ℤ) (p : String)
    (s : SamplerState) :
    (loadSampleForMidiNote env note p s).2.noteMapping = s.noteMapping := by
  unfold loadSampleForMidiNote
  split_ifs with h
  · rfl
  · cases hd : env.decode p with
    | some d => exact clearMidiNoteSample_mapping note s
    | none => exact clearMidiNoteSample_mapping note s

theorem loadSampleForMidiNote_slot_ne (env : Env) (note : ℤ) (p : String)
    (s : SamplerState) (m : ℕ) (hm : (m : ℤ) ≠ note) :
    (loadSampleForMidiNote env note p s).2.midiNoteSamples m = s.midiNoteSamples m := by
  unfold loadSampleForMidiNote
  split_ifs with h
  · rfl
  · have h0 : (0 : ℤ) ≤ note := by omega
    have hmn : m ≠ note.toNat := fun he => hm (by rw [he, Int.toNat_of_nonneg h0])
    cases hd : env.decode p with
    | some d =>
      simp only [hmn]
      simpa [hmn] using clearMidiNoteSample_slot_ne note s m hm
    | none => exact clearMidiNoteSample_slot_ne note s m hm

theorem loadSampleForMidiNote_result (env : Env) (note : ℤ) (p : String)
    (s : SamplerState) (h : ¬(note < 0 ∨ 128 ≤ note)) :
    (loadSampleForMidiNote env note p s).1 = (env.decode p).isSome := by
  unfold loadSampleForMidiNote
  rw [if_neg h]
  cases hd : env.decode p with
  | some d => rfl
  | none => rfl

theorem loadSampleForMidiNote_success_isLoaded (env : Env) (note : ℤ) (p : String)
    (s : SamplerState) (d : DecodedAudio) (h : ¬(note < 0 ∨ 128 ≤ note))
    (hd : env.decode p = some d) :
    ((loadSampleForMidiNote env note p s).2.midiNoteSamples note.toNat).isLoaded = true := by
  unfold loadSampleForMidiNote
  rw [if_neg h, hd]
  simp

theorem setNoteMapping_midiNoteSamples (bi note : ℤ) (s : SamplerState) :
    (setNoteMapping bi note s).midiNoteSamples = s.midiNoteSamples := by
  unfold setNoteMapping
  split_ifs with h
  · rfl
  · split <;> rfl

theorem importButtonEntry_midiNoteSamples (e : ButtonEntry) (s : SamplerState) :
    (importButtonEntry e s).midiNoteSamples = s.midiNoteSamples := by
  unfold importButtonEntry
  split_ifs with h
  · exact setNoteMapping_midiNoteSamples _ _ _
  · rfl

theorem importButtonEntries_midiNoteSamples :
    ∀ (es : List ButtonEntry) (s : SamplerState),
      (importButtonEntries es s).midiNoteSamples = s.midiNoteSamples := by
  intro es
  induction es with
  | nil => intro s; rfl
  | cons e es ih =>
    intro s
    rw [show importButtonEntries (e :: es) s =
        importButtonEntries es (importButtonEntry e s) from rfl,
      ih, importButtonEntry_midiNoteSamples]

theorem importButtonEntries_mapping (m : ℕ → ℤ) :
    ∀ (es : List ButtonEntry) (s : SamplerState),
      (∀ e ∈ es, 0 ≤ e.index → e.index < 16 → e.midiNote = m e.index.toNat) →
      (∀ j, s.noteMapping j = m j) →
      ∀ j, (importButtonEntries es s).noteMapping j = m j := by
  intro es
  induction es with
  | nil => intro s _ hs j; exact hs j
  | cons e es ih =>
    intro s hprop hs j
    rw [show importButtonEntries (e :: es) s =
        importButtonEntries es (importButtonEntry e s) from rfl]
    refine ih (importButtonEntry e s)
      (fun e' he' => hprop e' (List.mem_cons_of_mem _ he')) ?_ j
    intro j'
    unfold importButtonEntry
    split_ifs with h
    · simp only [setNoteMapping_mapping e.index e.midiNote s h.1 h.2]
      split_ifs with hj
      · rw [hj]
        exact hprop e (List.mem_cons_self _ _) h.1 h.2
      · exact hs j'
    · exact hs j'

theorem importNoteEntries_failedCount (env : Env) :
    ∀ (es : List NoteEntry) (s : SamplerState),
      (importNoteEntries env es s).2.2 = es.countP (noteEntryFails env) := by
  intro es
  induction es with
  | nil => intro s; rfl
  | cons e es ih =>
    intro s
    simp only [importNoteEntries]
    split_ifs with hg hf hl
    · have hin : ¬(e.midiNote < 0 ∨ 128 ≤ e.midiNote) := by
        obtain ⟨h1, h2, _⟩ := hg
        omega
      have hsome : (env.decode e.filePath).isSome = true := by
        rw [← loadSampleForMidiNote_result env e.midiNote e.filePath s hin]
        exact hl
      obtain ⟨d, hd⟩ := Option.isSome_iff_exists.mp hsome
      have hfail : noteEntryFails env e = false := by
        simp [noteEntryFails, hf, hd]
      simp [List.countP_cons, hfail, ih]
    · have hin : ¬(e.midiNote < 0 ∨ 128 ≤ e.midiNote) := by
        obtain ⟨h1, h2, _⟩ := hg
        omega
      have hnone : env.decode e.filePath = none := by
        cases ho : env.decode e.filePath with
        | some d =>
          exact absurd (by
            rw [loadSampleForMidiNote_result env e.midiNote e.filePath s hin, ho]
            rfl) hl
        | none => rfl
      have hfail : noteEntryFails env e = true := by
        simp [noteEntryFails, decide_eq_true hg, hnone]
      simp [List.countP_cons, hfail, ih]
    · have hfb : env.fileExists e.filePath = false := by
        simpa using hf
      have hfail : noteEntryFails env e = true := by
        simp [noteEntryFails, decide_eq_true hg, hfb]
      simp [List.countP_cons, hfail, ih]
    · have hfail : noteEntryFails env e = false := by
        simp [noteEntryFails, decide_eq_false hg]
      simp [List.countP_cons, hfail, ih]

theorem importNoteEntries_slot_untouched (env : Env) (n : ℕ) :
    ∀ (es : List NoteEntry) (s : SamplerState),
      (∀ e ∈ es, e.midiNote = (n : ℤ) → e.filePath ≠ "" →
        env.fileExists e.filePath = false) →
      (importNoteEntries env es s).1.midiNoteSamples n = s.midiNoteSamples n := by
  intro es
  induction es with
  | nil => intro s _; rfl
  | cons e es ih =>
    intro s hprop
    have htail : ∀ s' : SamplerState,
        (importNoteEntries env es s').1.midiNoteSamples n = s'.midiNoteSamples n :=
      fun s' => ih s' (fun e' he' => hprop e' (List.mem_cons_of_mem _ he'))
    simp only [importNoteEntries]
    split_ifs with hg hf hl
    · have hne : (n : ℤ) ≠ e.midiNote := by
        intro he
        have := hprop e (List.mem_cons_self _ _) he.symm hg.2.2
        rw [this] at hf
        cases hf
      rw [htail _, loadSampleForMidiNote_slot_ne env e.midiNote e.filePath s n hne]
    · have hne : (n : ℤ) ≠ e.midiNote := by
        intro he
        have := hprop e (List.mem_cons_self _ _) he.symm hg.2.2
        rw [this] at hf
        cases hf
      rw [htail _, loadSampleForMidiNote_slot_ne env e.midiNote e.filePath s n hne]
    · exact htail s
    · exact htail s

theorem importNoteEntries_valid_loaded (env : Env) :
    ∀ (es : List NoteEntry) (s : SamplerState),
      (es.map NoteEntry.midiNote).Nodup →
      ∀ e ∈ es, 0 ≤ e.midiNote → e.midiNote < 128 → e.filePath ≠ "" →
        env.fileExists e.filePath = true → (env.decode e.filePath).isSome = true →
        ((importNoteEntries env es s).1.midiNoteSamples e.midiNote.toNat).isLoaded =
          true := by
  intro es
  induction es with
  | nil => intro s _ e he; cases he
  | cons a es ih =>
    intro s hnd e he h1 h2 h3 h4 h5
    have hndtail : (es.map NoteEntry.midiNote).Nodup :=
      (List.nodup_cons.mp (by simpa using hnd)).2
    rcases List.mem_cons.mp he with rfl | hmem
    · have hin : ¬(e.midiNote < 0 ∨ 128 ≤ e.midiNote) := by omega
      obtain ⟨d, hd⟩ := Option.isSome_iff_exists.mp h5
      have hhead : e.midiNote ∉ es.map NoteEntry.midiNote :=
        (List.nodup_cons.mp (by simpa using hnd)).1
      have hprop : ∀ e' ∈ es, e'.midiNote = (e.midiNote.toNat : ℤ) →
          e'.filePath ≠ "" → env.fileExists e'.filePath = false := by
        intro e' he' hne _
        exfalso
        apply hhead
        rw [← show (e.midiNote.toNat : ℤ) = e.midiNote from Int.toNat_of_nonneg h1, ← hne]
        exact List.mem_map_of_mem _ he'
      have hlt : (loadSampleForMidiNote env e.midiNote e.filePath s).1 = true := by
        rw [loadSampleForMidiNote_result env e.midiNote e.filePath s hin, hd]
        rfl
      have hstep : (importNoteEntries env (e :: es) s).1 =
          (importNoteEntries env es
            (loadSampleForMidiNote env e.midiNote e.filePath s).2).1 := by
        simp only [importNoteEntries]
        rw [if_pos (⟨h1, h2, h3⟩ : 0 ≤ e.midiNote ∧ e.midiNote < 128 ∧ e.filePath ≠ ""),
          if_pos h4, if_pos hlt]
      rw [hstep, importNoteEntries_slot_untouched env e.midiNote.toNat es _ hprop]
      exact loadSampleForMidiNote_success_isLoaded env e.midiNote e.filePath s d hin hd
    · have hstep : ∀ t : SamplerState,
          ((importNoteEntries env es t).1.midiNoteSamples e.midiNote.toNat).isLoaded =
            true :=
        fun t => ih t hndtail e hmem h1 h2 h3 h4 h5
      simp only [importNoteEntries]
      split_ifs <;> exact hstep _

theorem importNoteEntries_roundtrip (env : Env) (s0 : SamplerState)
    (H : ∀ n : ℕ, n < 128 → (s0.midiNoteSamples n).isLoaded = true →
      (s0.midiNoteSamples n).filePath ≠ "" ∧
      env.fileExists ((s0.midiNoteSamples n).filePath) = true ∧
      (env.decode ((s0.midiNoteSamples n).filePath)).isSome = true) :
    ∀ (ns : List ℕ) (s : SamplerState),
      (∀ m, (s.midiNoteSamples m).isLoaded = (s0.midiNoteSamples m).isLoaded) →
      ((∀ m, ((importNoteEntries env (ns.map (exportNoteEntry s0)) s).1.midiNoteSamples
          m).isLoaded = (s0.midiNoteSamples m).isLoaded) ∧
        ∀ j, (importNoteEntries env (ns.map (exportNoteEntry s0)) s).1.noteMapping j =
          s.noteMapping j) := by
  intro ns
  induction ns with
  | nil => intro s hs; exact ⟨hs, fun j => rfl⟩
  | cons n ns ih =>
    intro s hs
    rw [List.map_cons]
    cases hl : (s0.midiNoteSamples n).isLoaded with
    | false =>
      have hef : (exportNoteEntry s0 n).filePath = "" := by
        simp [exportNoteEntry, hl]
      simp only [importNoteEntries]
      split_ifs with hg hf hload
      · exact absurd hg.2.2 (by rw [hef]; simp)
      · exact absurd hg.2.2 (by rw [hef]; simp)
      · exact absurd hg.2.2 (by rw [hef]; simp)
      · exact ih s hs
    | true =>
      by_cases hn : n < 128
      · obtain ⟨hp, hf0, hd0⟩ := H n hn hl
        obtain ⟨d, hdd⟩ := Option.isSome_iff_exists.mp hd0
        have hef : (exportNoteEntry s0 n).filePath = (s0.midiNoteSamples n).filePath := by
          simp [exportNoteEntry, hl]
        have hem : (exportNoteEntry s0 n).midiNote = (n : ℤ) := rfl
        have hin : ¬((exportNoteEntry s0 n).midiNote < 0 ∨
            128 ≤ (exportNoteEntry s0 n).midiNote) := by
          rw [hem]
          omega
        simp only [importNoteEntries]
        split_ifs with hg hf hload
        · refine (ih _ ?_).imp id (fun hmap j => ?_)
          · intro m
            by_cases hm : m = n
            · subst hm
              have := loadSampleForMidiNote_success_isLoaded env
                (exportNoteEntry s0 m).midiNote (exportNoteEntry s0 m).filePath s d hin
                (by rw [hef]; exact hdd)
              rw [show (exportNoteEntry s0 m).midiNote.toNat = m from by
                rw [hem]; exact Int.toNat_natCast m] at this
              rw [this, hl]
            · rw [loadSampleForMidiNote_slot_ne env _ _ s m
                (by rw [hem]; exact_mod_cast hm)]
              exact hs m
          · rw [hmap j, loadSampleForMidiNote_mapping]
        · exact absurd (by
            rw [loadSampleForMidiNote_result env _ _ s hin, hef, hdd]
            rfl) hload
        · exact absurd (by rw [hef]; exact hf0) hf
        · refine absurd ⟨?_, ?_, ?_⟩ hg
          · rw [hem]
            exact Int.natCast_nonneg n
          · rw [hem]
            exact_mod_cast hn
          · rw [hef]
            exact hp
      · have hem : (exportNoteEntry s0 n).midiNote = (n : ℤ) := rfl
        simp only [importNoteEntries]
        split_ifs with hg hf hload
        · exact absurd hg.2.1 (by rw [hem]; exact_mod_cast hn)
        · exact absurd hg.2.1 (by rw [hem]; exact_mod_cast hn)
        · exact absurd hg.2.1 (by rw [hem]; exact_mod_cast hn)
        · exact ih s hs

/-- C7: exporting the settings document and importing that same document into
the same state reproduces every pad-to-note binding and the same set of MIDI
notes reporting loaded, provided each loaded note's stored path still names
an existing, decodable file (the round-trip premise: the files are
unchanged between export and import). -/
theorem c7_export_import_round_trip (env : Env) (s : SamplerState)
    (H : ∀ n : ℕ, n < 128 → (s.midiNoteSamples n).isLoaded = true →
      (s.midiNoteSamples n).filePath ≠ "" ∧
      env.fileExists ((s.midiNoteSamples n).filePath) = true ∧
      (env.decode ((s.midiNoteSamples n).filePath)).isSome = true) :
    (∀ j, (loadAllSamplesFromJson env (exportAllSettings s) s).2.1.noteMapping j =
      s.noteMapping j) ∧
    ∀ n, ((loadAllSamplesFromJson env (exportAllSettings s) s).2.1.midiNoteSamples
      n).isLoaded = (s.midiNoteSamples n).isLoaded := by
  have heq : (loadAllSamplesFromJson env (exportAllSettings s) s).2.1 =
      (importNoteEntries env ((List.range 128).map (exportNoteEntry s))
        (importButtonEntries ((List.range 16).map (exportButtonEntry s))
          { s with oneShot := s.oneShot })).1 := rfl
  have hslots2 : (importButtonEntries ((List.range 16).map (exportButtonEntry s))
      { s with oneShot := s.oneShot }).midiNoteSamples = s.midiNoteSamples :=
    importButtonEntries_midiNoteSamples _ _
  have hinv : ∀ m, ((importButtonEntries ((List.range 16).map (exportButtonEntry s))
      { s with oneShot := s.oneShot }).midiNoteSamples m).isLoaded =
      (s.midiNoteSamples m).isLoaded := by
    intro m
    rw [hslots2]
  obtain ⟨hslotsF, hmapF⟩ := importNoteEntries_roundtrip env s H (List.range 128) _ hinv
  have hmap2 : ∀ j, (importButtonEntries ((List.range 16).map (exportButtonEntry s))
      { s with oneShot := s.oneShot }).noteMapping j = s.noteMapping j := by
    refine importButtonEntries_mapping s.noteMapping _ _ ?_ (fun j => rfl)
    intro e he hge hlt
    obtain ⟨i, hi, rfl⟩ := List.mem_map.mp he
    simp [exportButtonEntry, Int.toNat_natCast]
  constructor
  · intro j
    rw [heq, hmapF j, hmap2 j]
  · intro n
    rw [heq]
    exact hslotsF n

/-- C7 witness: the round trip at a concrete environment and a state whose
only loaded note is 60 (stored path "kick.wav", which exists and decodes). -/
theorem c7_witness :
    (∀ n : ℕ, n < 128 → (demoState.midiNoteSamples n).isLoaded = true →
      (demoState.midiNoteSamples n).filePath ≠ "" ∧
      demoEnv.fileExists ((demoState.midiNoteSamples n).filePath) = true ∧
      (demoEnv.decode ((demoState.midiNoteSamples n).filePath)).isSome = true) ∧
    ((∀ j, (loadAllSamplesFromJson demoEnv (exportAllSettings demoState)
        demoState).2.1.noteMapping j = demoState.noteMapping j) ∧
    ∀ n, ((loadAllSamplesFromJson demoEnv (exportAllSettings demoState)
        demoState).2.1.midiNoteSamples n).isLoaded =
      (demoState.midiNoteSamples n).isLoaded) :=
  ⟨by decide, c7_export_import_round_trip demoEnv demoState (by decide)⟩

/-- C8: importing a document some of whose referenced files no longer exist
still completes successfully (parse succeeded, so the import returns true):
each entry whose note slot was unloaded and whose referenced file is missing
leaves that note unloaded, every in-range entry with a non-empty path naming
an existing decodable file ends with its note loaded (assuming the document
lists each note at most once, as exports do), and the reported failure count
is exactly the number of in-range non-empty-path entries whose file was
missing or failed to decode. -/
theorem c8_import_partial_failure (env : Env) (s : SamplerState) (ver : String)
    (osm : Option Bool) (bs : Option (List ButtonEntry)) (es : List NoteEntry)
    (hnd : (es.map NoteEntry.midiNote).Nodup) :
    (loadAllSamplesFromJson env ⟨ver, osm, bs, some es⟩ s).1 = true ∧
    (loadAllSamplesFromJson env ⟨ver, osm, bs, some es⟩ s).2.2.2 =
      es.countP (noteEntryFails env) ∧
    (∀ e ∈ es, 0 ≤ e.midiNote → e.midiNote < 128 → e.filePath ≠ "" →
      env.fileExists e.filePath = true → (env.decode e.filePath).isSome = true →
      ((loadAllSamplesFromJson env ⟨ver, osm, bs, some es⟩ s).2.1.midiNoteSamples
        e.midiNote.toNat).isLoaded = true) ∧
    (∀ n : ℕ, (s.midiNoteSamples n).isLoaded = false →
      (∀ e ∈ es, e.midiNote = (n : ℤ) → e.filePath ≠ "" →
        env.fileExists e.filePath = false) →
      ((loadAllSamplesFromJson env ⟨ver, osm, bs, some es⟩ s).2.1.midiNoteSamples
        n).isLoaded = false) := by
  have hmain : ∀ s2 : SamplerState, s2.midiNoteSamples = s.midiNoteSamples →
      ((importNoteEntries env es s2).2.2 = es.countP (noteEntryFails env) ∧
      (∀ e ∈ es, 0 ≤ e.midiNote → e.midiNote < 128 → e.filePath ≠ "" →
        env.fileExists e.filePath = true → (env.decode e.filePath).isSome = true →
        ((importNoteEntries env es s2).1.midiNoteSamples e.midiNote.toNat).isLoaded =
          true) ∧
      (∀ n : ℕ, (s.midiNoteSamples n).isLoaded = false →
        (∀ e ∈ es, e.midiNote = (n : ℤ) → e.filePath ≠ "" →
          env.fileExists e.filePath = false) →
        ((importNoteEntries env es s2).1.midiNoteSamples n).isLoaded = false)) := by
    intro s2 hs2
    refine ⟨importNoteEntries_failedCount env es s2, ?_, ?_⟩
    · intro e he h1 h2 h3 h4 h5
      exact importNoteEntries_valid_loaded env es s2 hnd e he h1 h2 h3 h4 h5
    · intro n hn hprop
      rw [importNoteEntries_slot_untouched env n es s2 hprop, hs2]
      exact hn
  rcases osm with _ | b <;> rcases bs with _ | bl
  · obtain ⟨hc, hv, hu⟩ := hmain s rfl
    exact ⟨rfl, hc, hv, hu⟩
  · obtain ⟨hc, hv, hu⟩ := hmain (importButtonEntries bl s)
      (importButtonEntries_midiNoteSamples bl s)
    exact ⟨rfl, hc, hv, hu⟩
  · obtain ⟨hc, hv, hu⟩ := hmain { s with oneShot := b } rfl
    exact ⟨rfl, hc, hv, hu⟩
  · obtain ⟨hc, hv, hu⟩ := hmain (importButtonEntries bl { s with oneShot := b })
      (importButtonEntries_midiNoteSamples bl { s with oneShot := b })
    exact ⟨rfl, hc, hv, hu⟩

/-- C8 witness: the spec scenario — a document referencing one missing file
(note 60) and one valid file (note 61): the import succeeds, note 61 ends
loaded, note 60 stays unloaded, and the failure count is 1. -/
theorem c8_witness :
    (([⟨60, "missing.wav"⟩, ⟨61, "ok.wav"⟩] : List NoteEntry).map
      NoteEntry.midiNote).Nodup ∧
    ((loadAllSamplesFromJson demoEnvOk
        ⟨"1.0", some false, none, some [⟨60, "missing.wav"⟩, ⟨61, "ok.wav"⟩]⟩
        initialSamplerState).1 = true ∧
      (loadAllSamplesFromJson demoEnvOk
        ⟨"1.0", some false, none, some [⟨60, "missing.wav"⟩, ⟨61, "ok.wav"⟩]⟩
        initialSamplerState).2.2.2 =
        ([⟨60, "missing.wav"⟩, ⟨61, "ok.wav"⟩] : List NoteEntry).countP
          (noteEntryFails demoEnvOk) ∧
      (∀ e ∈ ([⟨60, "missing.wav"⟩, ⟨61, "ok.wav"⟩] : List NoteEntry),
        0 ≤ e.midiNote → e.midiNote < 128 → e.filePath ≠ "" →
        demoEnvOk.fileExists e.filePath = true →
        (demoEnvOk.decode e.filePath).isSome = true →
        ((loadAllSamplesFromJson demoEnvOk
          ⟨"1.0", some false, none, some [⟨60, "missing.wav"⟩, ⟨61, "ok.wav"⟩]⟩
          initialSamplerState).2.1.midiNoteSamples e.midiNote.toNat).isLoaded = true) ∧
      (∀ n : ℕ, (initialSamplerState.midiNoteSamples n).isLoaded = false →
        (∀ e ∈ ([⟨60, "missing.wav"⟩, ⟨61, "ok.wav"⟩] : List NoteEntry),
          e.midiNote = (n : ℤ) → e.filePath ≠ "" →
          demoEnvOk.fileExists e.filePath = false) →
        ((loadAllSamplesFromJson demoEnvOk
          ⟨"1.0", some false, none, some [⟨60, "missing.wav"⟩, ⟨61, "ok.wav"⟩]⟩
          initialSamplerState).2.1.midiNoteSamples n).isLoaded = false)) ∧
    (loadAllSamplesFromJson demoEnvOk
      ⟨"1.0", some false, none, some [⟨60, "missing.wav"⟩, ⟨61, "ok.wav"⟩]⟩
      initialSamplerState).2.2.2 = 1 ∧
    ((loadAllSamplesFromJson demoEnvOk
      ⟨"1.0", some false, none, some [⟨60, "missing.wav"⟩, ⟨61, "ok.wav"⟩]⟩
      initialSamplerState).2.1.midiNoteSamples 61).isLoaded = true ∧
    ((loadAllSamplesFromJson demoEnvOk
      ⟨"1.0", some false, none, some [⟨60, "missing.wav"⟩, ⟨61, "ok.wav"⟩]⟩
      initialSamplerState).2.1.midiNoteSamples 60).isLoaded = false :=
  ⟨by decide,
    c8_import_partial_failure demoEnvOk initialSamplerState "1.0" (some false) none
      [⟨60, "missing.wav"⟩, ⟨61, "ok.wav"⟩] (by decide),
    by decide, by decide, by decide⟩

end PocketSampler
